import Mathlib

/-!
Verification of the dashboard filtering-and-aggregation logic of the
finance_dashboard repository (expenses/models.py and expenses/views.py).

The development shallowly embeds the `dashboard` view: the data model
(Category, Transaction), the filter parsing performed on the raw query
parameters (`parse_date`, the `isdigit` guard on `category`, the
income/expense whitelist on `type`), the sequential queryset filtering,
the income/expense totals and balance, the expense-by-category breakdown,
and the 7-day expense trend anchored at the effective end date.

Modelling conventions:
- Monetary amounts (`DecimalField(max_digits=10, decimal_places=2)`) are
  exact decimals; they are embedded as integers counting hundredths
  (cents), so all sums are exact, as Decimal arithmetic is.
- Calendar dates are proleptic Gregorian triples (year, month, day), as
  `datetime.date`.  Date comparison is lexicographic, as in Python.
  `date + timedelta(days=1)` is `succDay`; subtracting a day is `predDay`,
  which fails (raising OverflowError in Python) below `date.min`,
  i.e. 0001-01-01.
- Strings are modelled over the Latin-1 fragment of Unicode: the strings
  appearing in the claims are ASCII, and the one non-ASCII behaviour that
  matters is that Python `str.isdigit` accepts the superscript digits
  U+00B9, U+00B2, U+00B3 while `int()` rejects them, which `pyIsDigit`
  versus `isDig` records.
- Operations that can raise in Python return `Except PyErr`.
-/

namespace FinanceDash

/-- The two values of `Transaction.TRANSACTION_TYPES` in expenses/models.py. -/
inductive TxType where
  | income
  | expense
deriving DecidableEq, Repr

/-- The `Category` model of expenses/models.py: an id and a name. -/
structure Category where
  id : Nat
  name : String
deriving DecidableEq, Repr

/-- A calendar date as a (year, month, day) triple, as `datetime.date`. -/
structure Date where
  year : Nat
  month : Nat
  day : Nat
deriving DecidableEq, Repr

/-- Gregorian leap-year rule, as used by `datetime.date`. -/
def isLeap (y : Nat) : Bool :=
  decide ((y % 4 = 0 ∧ y % 100 ≠ 0) ∨ y % 400 = 0)

/-- Number of days in a month of the proleptic Gregorian calendar. -/
def daysInMonth (y m : Nat) : Nat :=
  if m = 2 then (if isLeap y then 29 else 28)
  else if m = 4 ∨ m = 6 ∨ m = 9 ∨ m = 11 then 30
  else 31

/-- Validity of a date, exactly the check of the `datetime.date`
constructor: year between 1 and 9999, month between 1 and 12, day between
1 and the length of the month. -/
def dateOk (d : Date) : Prop :=
  1 ≤ d.year ∧ d.year ≤ 9999 ∧ 1 ≤ d.month ∧ d.month ≤ 12 ∧
    1 ≤ d.day ∧ d.day ≤ daysInMonth d.year d.month

instance instDecDateOk (d : Date) : Decidable (dateOk d) := by
  unfold dateOk; infer_instance

/-- Lexicographic order on dates, as Python compares `datetime.date`. -/
def dateLeP (a b : Date) : Prop :=
  a.year < b.year ∨ (a.year = b.year ∧
    (a.month < b.month ∨ (a.month = b.month ∧ a.day ≤ b.day)))

instance instDecDateLeP (a b : Date) : Decidable (dateLeP a b) := by
  unfold dateLeP; infer_instance

/-- Strict lexicographic order on dates. -/
def dateLtP (a b : Date) : Prop :=
  a.year < b.year ∨ (a.year = b.year ∧
    (a.month < b.month ∨ (a.month = b.month ∧ a.day < b.day)))

instance instDecDateLtP (a b : Date) : Decidable (dateLtP a b) := by
  unfold dateLtP; infer_instance

/-- The next calendar day: `d + timedelta(days=1)`. -/
def succDay (d : Date) : Date :=
  if d.day < daysInMonth d.year d.month then ⟨d.year, d.month, d.day + 1⟩
  else if d.month < 12 then ⟨d.year, d.month + 1, 1⟩
  else ⟨d.year + 1, 1, 1⟩

/-- The previous calendar day: `d - timedelta(days=1)`, which is `none`
when the result would fall below `date.min` (0001-01-01), where Python
raises OverflowError. -/
def predDay (d : Date) : Option Date :=
  if 1 < d.day then some ⟨d.year, d.month, d.day - 1⟩
  else if 1 < d.month then some ⟨d.year, d.month - 1, daysInMonth d.year (d.month - 1)⟩
  else if 1 < d.year then some ⟨d.year - 1, 12, 31⟩
  else none

/-- `d + timedelta(days=n)`. -/
def addDays (d : Date) : Nat → Date
  | 0 => d
  | n + 1 => succDay (addDays d n)

/-- `d - timedelta(days=n)`: `none` models the OverflowError raised when
the result would fall below `date.min`. -/
def subDays (d : Date) : Nat → Option Date
  | 0 => some d
  | n + 1 =>
    match predDay d with
    | none => none
    | some d2 => subDays d2 n

/-- The ASCII decimal digit character with value `n` (for `n ≤ 9`). -/
def digitChar (n : Nat) : Char := Char.ofNat (48 + n)

/-- A number rendered as two zero-padded decimal digits, as `%m`/`%d`
in `strftime`. -/
def pad2 (n : Nat) : List Char := [digitChar (n / 10 % 10), digitChar (n % 10)]

/-- A number rendered as four zero-padded decimal digits, as `%Y`
in `strftime` for years up to 9999. -/
def pad4 (n : Nat) : List Char :=
  [digitChar (n / 1000 % 10), digitChar (n / 100 % 10),
   digitChar (n / 10 % 10), digitChar (n % 10)]

/-- `d.strftime('%Y-%m-%d')`. -/
def dateFormat (d : Date) : String :=
  String.mk (pad4 d.year ++ ('-' :: pad2 d.month) ++ ('-' :: pad2 d.day))

/-- ASCII decimal digit predicate (code points 48 to 57). -/
def isDig (c : Char) : Prop := 48 ≤ c.toNat ∧ c.toNat ≤ 57

instance instDecIsDig (c : Char) : Decidable (isDig c) := by
  unfold isDig; infer_instance

/-- Python `str.isdigit` on a single character, over the Latin-1
fragment: ASCII digits plus the superscripts U+00B9, U+00B2, U+00B3,
which have the Unicode digit property but are not decimal digits, so
`int()` rejects them. -/
def pyIsDigit (c : Char) : Prop :=
  isDig c ∨ c = '¹' ∨ c = '²' ∨ c = '³'

instance instDecPyIsDigit (c : Char) : Decidable (pyIsDigit c) := by
  unfold pyIsDigit; infer_instance

/-- Python `s.isdigit()`: nonempty and every character a digit. -/
def pyStrIsDigit (s : String) : Prop :=
  s.data ≠ [] ∧ ∀ c ∈ s.data, pyIsDigit c

instance instDecPyStrIsDigit (s : String) : Decidable (pyStrIsDigit s) := by
  unfold pyStrIsDigit; infer_instance

/-- Numeric value of an ASCII digit character. -/
def digitVal (c : Char) : Nat := c.toNat - 48

/-- Value of a string of decimal digits, most significant first. -/
def natOfDigits (cs : List Char) : Nat :=
  cs.foldl (fun a c => a * 10 + digitVal c) 0

/-- Python `int(s)` restricted to strings that passed `s.isdigit()`:
it succeeds exactly on (nonempty) strings of decimal digits and raises
ValueError on digit-property characters such as the superscript two.
(`none` models the ValueError.) -/
def pyIntDigits (s : String) : Option Nat :=
  if ∀ c ∈ s.data, isDig c then some (natOfDigits s.data) else none

/-- Split a character list on the character `-`, keeping empty pieces,
as the separators of the `%Y-%m-%d` pattern do. -/
def splitDash : List Char → List (List Char)
  | [] => [[]]
  | c :: rest =>
    let r := splitDash rest
    if c = '-' then [] :: r
    else
      match r with
      | [] => [[c]]
      | g :: gs => (c :: g) :: gs

/-- The body of `parse_date` in expenses/views.py:
`datetime.strptime(value, "%Y-%m-%d").date()` with the ValueError
swallowed into `none`.  The `strptime` pattern requires exactly four
digits for `%Y`, one or two digits valued 1 to 12 for `%m`, one or two
digits valued 1 to 31 for `%d`, and a full match; the `date` constructor
then requires the year at least 1 and the day at most the month length.
(Digits are modelled as ASCII digits.) -/
def parseDate (s : String) : Option Date :=
  match splitDash s.data with
  | [ys, ms, ds] =>
    if ys.length = 4 ∧ (∀ c ∈ ys, isDig c) ∧
       1 ≤ ms.length ∧ ms.length ≤ 2 ∧ (∀ c ∈ ms, isDig c) ∧
       1 ≤ ds.length ∧ ds.length ≤ 2 ∧ (∀ c ∈ ds, isDig c) then
      if 1 ≤ natOfDigits ms ∧ natOfDigits ms ≤ 12 ∧
         1 ≤ natOfDigits ds ∧ natOfDigits ds ≤ 31 ∧
         1 ≤ natOfDigits ys ∧
         natOfDigits ds ≤ daysInMonth (natOfDigits ys) (natOfDigits ms) then
        some ⟨natOfDigits ys, natOfDigits ms, natOfDigits ds⟩
      else none
    else none
  | _ => none

/-- `parse_date` applied to an optional raw parameter: the guard
`if not value: return None` drops an absent or empty string. -/
def parseDateOpt (v : Option String) : Option Date :=
  match v with
  | none => none
  | some s => if s = "" then none else parseDate s

/-- A transaction record, with the fields the dashboard reads: `type`,
optional `category`, exact `amount` (in hundredths), and `date`.  The
`note` and `created_at` fields play no part in the dashboard and are
omitted. -/
structure Transaction where
  type : TxType
  category : Option Category
  amount : Int
  date : Date
deriving DecidableEq, Repr

/-- Python errors the dashboard body can raise. -/
inductive PyErr where
  | valueError
  | overflowError
deriving DecidableEq, Repr

/-- The parsed filter criteria: each component independently optional. -/
structure Criteria where
  s_date : Option Date
  e_date : Option Date
  category : Option Nat
  txType : Option TxType
deriving DecidableEq, Repr

/-- The raw query parameters of the dashboard request, each absent or a
string, as returned by `request.GET.get`. -/
structure RawParams where
  start_date : Option String
  end_date : Option String
  category : Option String
  txTypeRaw : Option String
deriving DecidableEq, Repr

/-- The `if tx_type in ('income', 'expense')` whitelist. -/
def parseType (v : Option String) : Option TxType :=
  match v with
  | some "income" => some TxType.income
  | some "expense" => some TxType.expense
  | _ => none

/-- The category filter guard of the view:
`if category_id and category_id.isdigit(): ... int(category_id)`.
An absent or non-isdigit string yields no filter; a string that passes
`isdigit` but is rejected by `int()` raises ValueError. -/
def parseCategory (v : Option String) : Except PyErr (Option Nat) :=
  match v with
  | none => Except.ok none
  | some s =>
    if pyStrIsDigit s then
      match pyIntDigits s with
      | some n => Except.ok (some n)
      | none => Except.error PyErr.valueError
    else Except.ok none

/-- The criteria assembled by the view from the raw parameters, given the
already-parsed category id. -/
def mkCriteria (p : RawParams) (cid : Option Nat) : Criteria :=
  { s_date := parseDateOpt p.start_date
    e_date := parseDateOpt p.end_date
    category := cid
    txType := parseType p.txTypeRaw }

/-- `transactions.filter(date__gte=s_date)` as a predicate. -/
def sPred (d : Date) (t : Transaction) : Bool := decide (dateLeP d t.date)

/-- `transactions.filter(date__lte=e_date)` as a predicate. -/
def ePred (d : Date) (t : Transaction) : Bool := decide (dateLeP t.date d)

/-- `transactions.filter(category__id=cid)` as a predicate: a transaction
with no category never matches. -/
def catMatches (cid : Nat) (t : Transaction) : Bool :=
  match t.category with
  | some c => c.id == cid
  | none => false

/-- `transactions.filter(type=ty)` as a predicate. -/
def tyPred (ty : TxType) (t : Transaction) : Bool := t.type == ty

/-- One optional filter step of the view (`if x: qs = qs.filter(...)`). -/
def optFilter {β : Type} (o : Option β) (f : β → Transaction → Bool)
    (l : List Transaction) : List Transaction :=
  match o with
  | none => l
  | some b => l.filter (f b)

/-- The sequential filter application of the view: start date, end date,
category, type, in the order of the source. -/
def applyFilters (c : Criteria) (txs : List Transaction) : List Transaction :=
  optFilter c.txType tyPred
    (optFilter c.category catMatches
      (optFilter c.e_date ePred
        (optFilter c.s_date sPred txs)))

/-- Whether one optional filter criterion passes a transaction (an absent
criterion imposes no constraint). -/
def optPass {β : Type} (o : Option β) (f : β → Transaction → Bool)
    (t : Transaction) : Bool :=
  match o with
  | none => true
  | some b => f b t

/-- The start-date criterion as a predicate on one transaction. -/
def sPass (c : Criteria) (t : Transaction) : Bool := optPass c.s_date sPred t

/-- The end-date criterion as a predicate on one transaction. -/
def ePass (c : Criteria) (t : Transaction) : Bool := optPass c.e_date ePred t

/-- The category criterion as a predicate on one transaction. -/
def catPass (c : Criteria) (t : Transaction) : Bool := optPass c.category catMatches t

/-- The type criterion as a predicate on one transaction. -/
def tyPass (c : Criteria) (t : Transaction) : Bool := optPass c.txType tyPred t

/-- Conjunction of all present criteria on one transaction. -/
def matchesFilters (c : Criteria) (t : Transaction) : Bool :=
  sPass c t && ePass c t && catPass c t && tyPass c t

/-- The list of the predicates of the present criteria, in source order. -/
def presentPreds (c : Criteria) : List (Transaction → Bool) :=
  (match c.s_date with | none => [] | some d => [sPred d]) ++
  (match c.e_date with | none => [] | some d => [ePred d]) ++
  (match c.category with | none => [] | some cid => [catMatches cid]) ++
  (match c.txType with | none => [] | some ty => [tyPred ty])

/-- Sequential filtering by a list of predicates, one pass after the
other. -/
def seqFilter (ps : List (Transaction → Bool)) (txs : List Transaction) :
    List Transaction :=
  ps.foldl (fun acc p => acc.filter p) txs

/-- Sum of the amounts of a list of transactions (the `Sum('amount')`
aggregate; an empty aggregate, `None or Decimal('0.00')`, is 0). -/
def sumAmount (l : List Transaction) : Int := (l.map Transaction.amount).sum

/-- The `type='income'` test. -/
def isIncome (t : Transaction) : Bool := t.type == TxType.income

/-- The `type='expense'` test. -/
def isExpense (t : Transaction) : Bool := t.type == TxType.expense

/-- The grouping key of the breakdown query `values('category__name')`:
the category name, or `none` for the SQL NULL of a transaction without
category. -/
def catKey (t : Transaction) : Option String := t.category.map Category.name

/-- The label substitution `item['category__name'] or 'Uncategorized'`:
Python `or` replaces both `None` and the empty string (both falsy). -/
def pyOrLabel (k : Option String) : String :=
  match k with
  | none => "Uncategorized"
  | some s => if s = "" then "Uncategorized" else s

/-- The distinct grouping keys of the breakdown, one group per distinct
`category__name` among the filtered expense rows. -/
def groupKeys (l : List Transaction) : List (Option String) :=
  (l.map catKey).dedup

/-- The `Sum('amount')` of one breakdown group. -/
def groupTotal (l : List Transaction) (k : Option String) : Int :=
  sumAmount (l.filter (fun t => catKey t == k))

/-- The anchor of the 7-day trend: `e_date if e_date else date.today()`. -/
def anchorOfCrit (c : Criteria) (today : Date) : Date :=
  match c.e_date with
  | some d => d
  | none => today

/-- The 7-day window of the trend:
`start_day = end_day - timedelta(days=6)` followed by
`start_day + timedelta(days=i)` for `i in range(7)`; `none` models the
OverflowError of the subtraction. -/
def buildWindow (anchor : Date) : Option (List Date) :=
  match subDays anchor 6 with
  | none => none
  | some start => some ((List.range 7).map (addDays start))

/-- The income total of the filtered set. -/
def totalIncome (c : Criteria) (txs : List Transaction) : Int :=
  sumAmount ((applyFilters c txs).filter isIncome)

/-- The expense total of the filtered set. -/
def totalExpense (c : Criteria) (txs : List Transaction) : Int :=
  sumAmount ((applyFilters c txs).filter isExpense)

/-- The filtered expense rows feeding the breakdown. -/
def expensesOf (c : Criteria) (txs : List Transaction) : List Transaction :=
  (applyFilters c txs).filter isExpense

/-- The aggregation context the dashboard sends to the template (the
chart values, exact here, are converted with `float` only for display). -/
structure DashboardResult where
  total_income : Int
  total_expense : Int
  balance : Int
  expense_cat_labels : List String
  expense_cat_values : List Int
  last7_labels : List String
  last7_values : List Int
deriving DecidableEq, Repr

/-- The record the dashboard builds once the 7-day window exists. -/
def dashResult (c : Criteria) (today : Date) (txs : List Transaction)
    (ws : List Date) : DashboardResult :=
  { total_income := totalIncome c txs
    total_expense := totalExpense c txs
    balance := totalIncome c txs - totalExpense c txs
    expense_cat_labels := (groupKeys (expensesOf c txs)).map pyOrLabel
    expense_cat_values := (groupKeys (expensesOf c txs)).map (groupTotal (expensesOf c txs))
    last7_labels := ws.map dateFormat
    last7_values := ws.map (fun day =>
      sumAmount ((applyFilters c txs).filter (fun t => isExpense t && (t.date == day)))) }

/-- The dashboard aggregation on already-parsed criteria: totals,
balance, breakdown, and the 7-day trend, which raises OverflowError when
the window start falls below `date.min`. -/
def aggregate (c : Criteria) (today : Date) (txs : List Transaction) :
    Except PyErr DashboardResult :=
  match buildWindow (anchorOfCrit c today) with
  | none => Except.error PyErr.overflowError
  | some ws => Except.ok (dashResult c today txs ws)

/-- The full dashboard view on raw query parameters: parse the category
(which can raise ValueError), assemble the criteria, aggregate. -/
def dashboardRaw (p : RawParams) (today : Date) (txs : List Transaction) :
    Except PyErr DashboardResult :=
  match parseCategory p.category with
  | Except.error e => Except.error e
  | Except.ok cid => aggregate (mkCriteria p cid) today txs

/-! ### Filter composition -/

theorem optFilter_eq {β : Type} (o : Option β) (f : β → Transaction → Bool)
    (l : List Transaction) : optFilter o f l = l.filter (optPass o f) := by
  cases o with
  | none => exact (List.filter_true l).symm
  | some b => rfl

theorem bool_reorder (a b c d : Bool) :
    (d && c && b && a) = (a && b && c && d) := by
  cases a <;> cases b <;> cases c <;> cases d <;> rfl

theorem applyFilters_eq_filter (c : Criteria) (txs : List Transaction) :
    applyFilters c txs = txs.filter (matchesFilters c) := by
  unfold applyFilters
  rw [optFilter_eq, optFilter_eq, optFilter_eq, optFilter_eq,
    List.filter_filter, List.filter_filter, List.filter_filter]
  refine List.filter_congr fun t ht => ?_
  show (tyPass c t && catPass c t && ePass c t && sPass c t) = matchesFilters c t
  unfold matchesFilters
  exact bool_reorder _ _ _ _

theorem matches_eq_all (c : Criteria) (t : Transaction) :
    matchesFilters c t = (presentPreds c).all (fun p => p t) := by
  obtain ⟨s, e, cat, ty⟩ := c
  unfold matchesFilters presentPreds sPass ePass catPass tyPass optPass
  cases s <;> cases e <;> cases cat <;> cases ty <;>
    simp [List.all_append, List.all_cons, Bool.and_assoc]

theorem seqFilter_eq_filter_all (ps : List (Transaction → Bool))
    (txs : List Transaction) :
    seqFilter ps txs = txs.filter (fun t => ps.all (fun p => p t)) := by
  induction ps generalizing txs with
  | nil => exact (List.filter_true txs).symm
  | cons p ps ih =>
    show seqFilter ps (txs.filter p) = _
    rw [ih, List.filter_filter]
    refine List.filter_congr fun t ht => ?_
    simp [List.all_cons, Bool.and_comm]

theorem perm_all {α : Type} {f : α → Bool} {l1 l2 : List α}
    (h : l1.Perm l2) : l1.all f = l2.all f := by
  induction h with
  | nil => rfl
  | cons x h2 ih => simp [List.all_cons, ih]
  | swap x y l =>
    cases hx : f x <;> cases hy : f y <;> simp [List.all_cons, hx, hy]
  | trans h1 h2 ih1 ih2 => rw [ih1, ih2]

/-! ### Calendar arithmetic -/

theorem daysInMonth_pos (y m : Nat) : 1 ≤ daysInMonth y m := by
  unfold daysInMonth
  split
  · split <;> omega
  · split <;> omega

theorem daysInMonth_twelve (y : Nat) : daysInMonth y 12 = 31 := by
  unfold daysInMonth
  norm_num

theorem dateLt_succDay (d : Date) : dateLtP d (succDay d) := by
  unfold succDay dateLtP
  split
  · exact Or.inr ⟨rfl, Or.inr ⟨rfl, Nat.lt_succ_self _⟩⟩
  · split
    · exact Or.inr ⟨rfl, Or.inl (Nat.lt_succ_self _)⟩
    · exact Or.inl (Nat.lt_succ_self _)

theorem dateLtP_trans {a b c : Date} (h1 : dateLtP a b) (h2 : dateLtP b c) :
    dateLtP a c := by
  unfold dateLtP at h1 h2 ⊢
  rcases h1 with h1 | ⟨hy1, h1⟩
  · rcases h2 with h2 | ⟨hy2, h2⟩
    · exact Or.inl (by omega)
    · exact Or.inl (by omega)
  · rcases h2 with h2 | ⟨hy2, h2⟩
    · exact Or.inl (by omega)
    · refine Or.inr ⟨by omega, ?_⟩
      rcases h1 with h1 | ⟨hm1, h1⟩ <;> rcases h2 with h2 | ⟨hm2, h2⟩
      · exact Or.inl (by omega)
      · exact Or.inl (by omega)
      · exact Or.inl (by omega)
      · exact Or.inr ⟨by omega, by omega⟩

theorem dateLeP_trans {a b c : Date} (h1 : dateLeP a b) (h2 : dateLeP b c) :
    dateLeP a c := by
  unfold dateLeP at h1 h2 ⊢
  rcases h1 with h1 | ⟨hy1, h1⟩
  · rcases h2 with h2 | ⟨hy2, h2⟩
    · exact Or.inl (by omega)
    · exact Or.inl (by omega)
  · rcases h2 with h2 | ⟨hy2, h2⟩
    · exact Or.inl (by omega)
    · refine Or.inr ⟨by omega, ?_⟩
      rcases h1 with h1 | ⟨hm1, h1⟩ <;> rcases h2 with h2 | ⟨hm2, h2⟩
      · exact Or.inl (by omega)
      · exact Or.inl (by omega)
      · exact Or.inl (by omega)
      · exact Or.inr ⟨by omega, by omega⟩

theorem dateLeP_dateLtP_irrefl {a b : Date} (h1 : dateLeP a b)
    (h2 : dateLtP b a) : False := by
  unfold dateLeP at h1
  unfold dateLtP at h2
  rcases h1 with h1 | ⟨e1, h1 | ⟨f1, h1⟩⟩ <;>
    rcases h2 with h2 | ⟨e2, h2 | ⟨f2, h2⟩⟩ <;> omega

theorem predDay_ok {d d2 : Date} (hd : dateOk d) (h : predDay d = some d2) :
    dateOk d2 ∧ succDay d2 = d := by
  obtain ⟨dy, dm, dd⟩ := d
  obtain ⟨hy1, hy2, hm1, hm2, hd1, hdim⟩ := hd
  dsimp only at hy1 hy2 hm1 hm2 hd1 hdim
  unfold predDay at h
  dsimp only at h
  split at h
  next hday =>
    cases h
    refine ⟨⟨hy1, hy2, hm1, hm2, show 1 ≤ dd - 1 by omega,
      show dd - 1 ≤ daysInMonth dy dm by omega⟩, ?_⟩
    unfold succDay
    rw [if_pos (show dd - 1 < daysInMonth dy dm by omega)]
    have he : dd - 1 + 1 = dd := by omega
    rw [he]
  next hday =>
    split at h
    next hmon =>
      cases h
      have hp := daysInMonth_pos dy (dm - 1)
      refine ⟨⟨hy1, hy2, show 1 ≤ dm - 1 by omega, show dm - 1 ≤ 12 by omega,
        hp, le_refl _⟩, ?_⟩
      unfold succDay
      rw [if_neg (show ¬ daysInMonth dy (dm - 1) <
            daysInMonth dy (dm - 1) by omega)]
      rw [if_pos (show dm - 1 < 12 by omega)]
      show Date.mk dy (dm - 1 + 1) 1 = Date.mk dy dm dd
      have he1 : dm - 1 + 1 = dm := by omega
      have he2 : dd = 1 := by omega
      rw [he1, he2]
    next hmon =>
      split at h
      next hyr =>
        cases h
        have h31 := daysInMonth_twelve (dy - 1)
        refine ⟨⟨show 1 ≤ dy - 1 by omega, show dy - 1 ≤ 9999 by omega,
          show (1 : Nat) ≤ 12 by omega, le_refl _, show (1 : Nat) ≤ 31 by omega,
          show (31 : Nat) ≤ daysInMonth (dy - 1) 12 by omega⟩, ?_⟩
        unfold succDay
        rw [if_neg (show ¬ (31 : Nat) < daysInMonth (dy - 1) 12 by omega)]
        rw [if_neg (show ¬ (12 : Nat) < 12 by omega)]
        show Date.mk (dy - 1 + 1) 1 1 = Date.mk dy dm dd
        have he1 : dy - 1 + 1 = dy := by omega
        have he2 : dm = 1 := by omega
        have he3 : dd = 1 := by omega
        rw [he1, he2, he3]
      next => exact Option.noConfusion h

theorem subDays_ok {d d2 : Date} {n : Nat} (hd : dateOk d)
    (h : subDays d n = some d2) :
    addDays d2 n = d ∧ ∀ i, i ≤ n → dateOk (addDays d2 i) := by
  induction n generalizing d with
  | zero =>
    cases h
    exact ⟨rfl, fun i hi => by
      have : i = 0 := by omega
      subst this
      exact hd⟩
  | succ n ih =>
    unfold subDays at h
    split at h
    next => exact Option.noConfusion h
    next d3 hp =>
      obtain ⟨h3ok, h3succ⟩ := predDay_ok hd hp
      obtain ⟨hadd, hok⟩ := ih h3ok h
      have htop : addDays d2 (n + 1) = d := by
        show succDay (addDays d2 n) = d
        rw [hadd, h3succ]
      refine ⟨htop, fun i hi => ?_⟩
      rcases Nat.lt_or_ge i (n + 1) with hlt | hge
      · exact hok i (by omega)
      · have hieq : i = n + 1 := by omega
        subst hieq
        rw [htop]
        exact hd

theorem dateLt_addDays (d : Date) (i k : Nat) :
    dateLtP (addDays d i) (addDays d (i + k + 1)) := by
  induction k with
  | zero => exact dateLt_succDay (addDays d i)
  | succ k ih =>
    have he : i + (k + 1) + 1 = (i + k + 1) + 1 := by omega
    rw [he]
    exact dateLtP_trans ih (dateLt_succDay (addDays d (i + k + 1)))

theorem dateLt_addDays_of_lt (d : Date) {i j : Nat} (hij : i < j) :
    dateLtP (addDays d i) (addDays d j) := by
  have he : j = i + (j - i - 1) + 1 := by omega
  rw [he]
  exact dateLt_addDays d i (j - i - 1)

/-! ### Parsing facts -/

theorem foldl_digits_lt (cs : List Char) (a : Nat) (h : ∀ c ∈ cs, isDig c) :
    cs.foldl (fun a c => a * 10 + digitVal c) a < (a + 1) * 10 ^ cs.length := by
  induction cs generalizing a with
  | nil => simpa using Nat.lt_succ_self a
  | cons c cs ih =>
    have hc : digitVal c ≤ 9 := by
      have h9 := h c (List.mem_cons_self c cs)
      unfold isDig at h9
      unfold digitVal
      omega
    have h2 := ih (a * 10 + digitVal c) (fun x hx => h x (List.mem_cons_of_mem c hx))
    have h3 : (a * 10 + digitVal c + 1) * 10 ^ cs.length ≤
        (a + 1) * 10 ^ (c :: cs).length := by
      have hb : a * 10 + digitVal c + 1 ≤ (a + 1) * 10 := by omega
      calc (a * 10 + digitVal c + 1) * 10 ^ cs.length
          ≤ (a + 1) * 10 * 10 ^ cs.length := Nat.mul_le_mul_right _ hb
        _ = (a + 1) * 10 ^ (c :: cs).length := by
            rw [List.length_cons, pow_succ]
            ring
    exact Nat.lt_of_lt_of_le h2 h3

theorem natOfDigits_lt (cs : List Char) (h : ∀ c ∈ cs, isDig c) :
    natOfDigits cs < 10 ^ cs.length := by
  have h2 := foldl_digits_lt cs 0 h
  simpa [natOfDigits] using h2

theorem parseDate_ok {s : String} {d : Date} (h : parseDate s = some d) :
    dateOk d := by
  unfold parseDate at h
  split at h
  next ys ms ds heq =>
    split at h
    next h1 =>
      split at h
      next h2 =>
        cases h
        obtain ⟨hy4, hysd, hml1, hml2, hmsd, hdl1, hdl2, hdsd⟩ := h1
        obtain ⟨hm1, hm2, hd1, hd31, hy1, hdm⟩ := h2
        have hylt : natOfDigits ys < 10 ^ ys.length := natOfDigits_lt ys hysd
        rw [hy4] at hylt
        have h4 : (10 : Nat) ^ 4 = 10000 := by norm_num
        exact ⟨hy1, show natOfDigits ys ≤ 9999 by omega, hm1, hm2, hd1, hdm⟩
      next => exact Option.noConfusion h
    next => exact Option.noConfusion h
  next => exact Option.noConfusion h

theorem parseDateOpt_ok {v : Option String} {d : Date}
    (h : parseDateOpt v = some d) : dateOk d := by
  unfold parseDateOpt at h
  split at h
  next => exact Option.noConfusion h
  next s =>
    split at h
    next => exact Option.noConfusion h
    next => exact parseDate_ok h

/-! ### Window and result elimination -/

theorem buildWindow_eq {a : Date} {ws : List Date} (h : buildWindow a = some ws) :
    ∃ start, subDays a 6 = some start ∧ ws = (List.range 7).map (addDays start) := by
  unfold buildWindow at h
  split at h
  next => exact Option.noConfusion h
  next start hs =>
    cases h
    exact ⟨start, hs, rfl⟩

theorem buildWindow_length {a : Date} {ws : List Date}
    (h : buildWindow a = some ws) : ws.length = 7 := by
  obtain ⟨start, hs, hmap⟩ := buildWindow_eq h
  rw [hmap, List.length_map, List.length_range]

theorem aggregate_ok_elim {c : Criteria} {today : Date} {txs : List Transaction}
    {r : DashboardResult} (h : aggregate c today txs = Except.ok r) :
    ∃ ws, buildWindow (anchorOfCrit c today) = some ws ∧
      r = dashResult c today txs ws := by
  unfold aggregate at h
  split at h
  next => exact Except.noConfusion h
  next ws hw =>
    injection h with h2
    exact ⟨ws, hw, h2.symm⟩

theorem dashboardRaw_ok_elim {p : RawParams} {today : Date}
    {txs : List Transaction} {r : DashboardResult}
    (h : dashboardRaw p today txs = Except.ok r) :
    ∃ cid, parseCategory p.category = Except.ok cid ∧
      aggregate (mkCriteria p cid) today txs = Except.ok r := by
  unfold dashboardRaw at h
  split at h
  next e he => exact Except.noConfusion h
  next cid hc => exact ⟨cid, hc, h⟩

theorem window_chain (start : Date) :
    List.Chain' (fun a b => b = succDay a) ((List.range 7).map (addDays start)) := by
  rw [List.chain'_map]
  have h7 : (7 : Nat) = Nat.succ 6 := rfl
  rw [h7, List.chain'_range_succ]
  intro m hm
  rfl

theorem window_pairwise (start : Date) :
    List.Pairwise dateLtP ((List.range 7).map (addDays start)) := by
  rw [List.pairwise_map]
  exact (List.pairwise_lt_range 7).imp fun {a b} h => dateLt_addDays_of_lt start h

theorem window_getLast (start : Date) :
    ((List.range 7).map (addDays start)).getLast? = some (addDays start 6) := by
  rw [List.getLast?_map, List.getLast?_range]
  norm_num

/-- The anchor of the trend in terms of the raw parameters. -/
def anchorOf (p : RawParams) (today : Date) : Date :=
  match parseDateOpt p.end_date with
  | some d => d
  | none => today

theorem anchorOf_ok {p : RawParams} {today : Date} (h : dateOk today) :
    dateOk (anchorOf p today) := by
  unfold anchorOf
  split
  next d hd => exact parseDateOpt_ok hd
  next => exact h

/-- Concrete criteria used to witness C1: all four filters present. -/
def c1Crit : Criteria :=
  { s_date := some ⟨2025, 6, 1⟩
    e_date := some ⟨2025, 6, 30⟩
    category := some 1
    txType := some TxType.expense }

/-- Concrete transactions used to witness C1. -/
def c1Txs : List Transaction :=
  [{ type := TxType.expense, category := some ⟨1, "Food"⟩, amount := 1000, date := ⟨2025, 6, 1⟩ },
   { type := TxType.income, category := none, amount := 5000, date := ⟨2025, 6, 2⟩ },
   { type := TxType.expense, category := some ⟨2, "Rent"⟩, amount := 500, date := ⟨2025, 6, 2⟩ },
   { type := TxType.expense, category := some ⟨1, "Food"⟩, amount := 700, date := ⟨2025, 5, 20⟩ }]

/-- C1: for every combination of present filter criteria, the filtered
transaction set of the dashboard equals the set obtained by applying each
present predicate independently and intersecting (AND semantics), the
same regardless of the order of predicate application; absent criteria
impose no constraint. -/
theorem C1_filter_and_semantics (c : Criteria) (txs : List Transaction)
    (ps : List (Transaction → Bool)) (hp : ps.Perm (presentPreds c)) :
    applyFilters c txs = txs.filter (matchesFilters c) ∧
    (∀ t, t ∈ applyFilters c txs ↔
      t ∈ txs ∧ ∀ p ∈ presentPreds c, p t = true) ∧
    seqFilter ps txs = applyFilters c txs := by
  have h1 := applyFilters_eq_filter c txs
  refine ⟨h1, fun t => ?_, ?_⟩
  · rw [h1, List.mem_filter, matches_eq_all]
    exact and_congr_right fun _ => List.all_eq_true
  · rw [seqFilter_eq_filter_all, h1]
    refine List.filter_congr fun t ht => ?_
    rw [perm_all hp, matches_eq_all]

theorem C1_filter_and_semantics_witness :
    applyFilters c1Crit c1Txs = c1Txs.filter (matchesFilters c1Crit) ∧
    (∀ t, t ∈ applyFilters c1Crit c1Txs ↔
      t ∈ c1Txs ∧ ∀ p ∈ presentPreds c1Crit, p t = true) ∧
    seqFilter ((presentPreds c1Crit).reverse) c1Txs = applyFilters c1Crit c1Txs :=
  C1_filter_and_semantics c1Crit c1Txs ((presentPreds c1Crit).reverse)
    (List.reverse_perm (presentPreds c1Crit))

/-- Concrete raw parameters used for C2: an explicit end_date filter. -/
def c2Params : RawParams :=
  { start_date := none, end_date := some "2025-06-02", category := none, txTypeRaw := none }

/-- Concrete system date used for C2. -/
def c2Today : Date := ⟨2025, 6, 2⟩

/-- The 7-day window of the C2 instance. -/
def c2Window : List Date :=
  [⟨2025, 5, 27⟩, ⟨2025, 5, 28⟩, ⟨2025, 5, 29⟩, ⟨2025, 5, 30⟩,
   ⟨2025, 5, 31⟩, ⟨2025, 6, 1⟩, ⟨2025, 6, 2⟩]

/-- The dashboard output of the C2 instance (no transactions). -/
def c2Result : DashboardResult :=
  { total_income := 0, total_expense := 0, balance := 0
    expense_cat_labels := [], expense_cat_values := []
    last7_labels := ["2025-05-27", "2025-05-28", "2025-05-29", "2025-05-30",
                     "2025-05-31", "2025-06-01", "2025-06-02"]
    last7_values := [0, 0, 0, 0, 0, 0, 0] }

/-- C2 (amended): whenever the dashboard call returns a result (which it
does unless the 7-day window would extend below the minimum representable
date 0001-01-01, in which case the code raises OverflowError and produces
no trend at all), the trend consists of two parallel sequences of length
exactly 7 whose date labels are the YYYY-MM-DD formatting of strictly
increasing consecutive calendar days, oldest first, ending at the anchor
date, where the anchor is the parsed end_date filter value when present
and the current system date otherwise. -/
theorem C2_trend_shape (p : RawParams) (today : Date) (txs : List Transaction)
    (r : DashboardResult) (ws : List Date)
    (htoday : dateOk today)
    (h : dashboardRaw p today txs = Except.ok r)
    (hw : buildWindow (anchorOf p today) = some ws) :
    r.last7_labels = ws.map dateFormat ∧
    r.last7_labels.length = 7 ∧
    r.last7_values.length = 7 ∧
    List.Chain' (fun a b => b = succDay a) ws ∧
    List.Pairwise dateLtP ws ∧
    ws.getLast? = some (anchorOf p today) ∧
    anchorOf p today = (match parseDateOpt p.end_date with
                        | some d => d
                        | none => today) := by
  obtain ⟨cid, hc, hagg⟩ := dashboardRaw_ok_elim h
  obtain ⟨ws2, hw2, hr⟩ := aggregate_ok_elim hagg
  have hanch : anchorOfCrit (mkCriteria p cid) today = anchorOf p today := rfl
  rw [hanch] at hw2
  rw [hw2] at hw
  have hws : ws2 = ws := Option.some.inj hw
  subst hws
  subst hr
  obtain ⟨start, hs, hmap⟩ := buildWindow_eq hw2
  have hOk : dateOk (anchorOf p today) := anchorOf_ok htoday
  obtain ⟨hadd, hvalid⟩ := subDays_ok hOk hs
  refine ⟨rfl, ?_, ?_, ?_, ?_, ?_, rfl⟩
  · show (ws2.map dateFormat).length = 7
    rw [List.length_map, buildWindow_length hw2]
  · show (ws2.map _).length = 7
    rw [List.length_map, buildWindow_length hw2]
  · rw [hmap]
    exact window_chain start
  · rw [hmap]
    exact window_pairwise start
  · rw [hmap, window_getLast, hadd]

theorem C2_trend_shape_witness :
    c2Result.last7_labels = c2Window.map dateFormat :=
  (C2_trend_shape c2Params c2Today [] c2Result c2Window
    (by decide) (by rfl) (by rfl)).1

/-- C2 counterexample: with the well-formed filter end_date=0001-01-05 the
window subtraction underflows the minimum representable date, the
operation raises OverflowError, and no 7-entry trend is produced, so the
claim fails as stated for this filter input. -/
theorem C2_trend_shape_counterexample :
    dashboardRaw
      { start_date := none, end_date := some "0001-01-05",
        category := none, txTypeRaw := none }
      ⟨2025, 1, 1⟩ [] = Except.error PyErr.overflowError := by
  rfl

/-! ### Balance -/

/-- The signed sum of a transaction list: income counts positively,
expense negatively. -/
def signedSum (l : List Transaction) : Int :=
  (l.map (fun t => match t.type with
    | TxType.income => t.amount
    | TxType.expense => -t.amount)).sum

theorem income_sub_expense (l : List Transaction) :
    sumAmount (l.filter isIncome) - sumAmount (l.filter isExpense) =
      signedSum l := by
  induction l with
  | nil => simp [sumAmount, signedSum]
  | cons t ts ih =>
    cases htype : t.type
    · have h1 : isIncome t = true := by simp [isIncome, htype]
      have h2 : isExpense t = false := by simp [isExpense, htype]
      simp only [List.filter_cons, h1, h2, if_true, Bool.false_eq_true, if_false,
        sumAmount, signedSum, List.map_cons, List.sum_cons, htype] at ih ⊢
      omega
    · have h1 : isIncome t = false := by simp [isIncome, htype]
      have h2 : isExpense t = true := by simp [isExpense, htype]
      simp only [List.filter_cons, h1, h2, if_true, Bool.false_eq_true, if_false,
        sumAmount, signedSum, List.map_cons, List.sum_cons, htype] at ih ⊢
      omega

/-- C3: for every filter combination and transaction collection, whenever
the dashboard returns a result, the balance equals total income minus
total expense exactly (equivalently, the signed sum of the filtered
amounts, income positive and expense negative), including when both
totals are zero; the arithmetic is exact. -/
theorem C3_balance (c : Criteria) (today : Date) (txs : List Transaction)
    (r : DashboardResult) (h : aggregate c today txs = Except.ok r) :
    r.balance = r.total_income - r.total_expense ∧
    r.balance = signedSum (applyFilters c txs) := by
  obtain ⟨ws, hw, hr⟩ := aggregate_ok_elim h
  subst hr
  exact ⟨rfl, income_sub_expense (applyFilters c txs)⟩

/-- Concrete system date used for C3. -/
def c3Today : Date := ⟨2025, 6, 2⟩

/-- Concrete transactions used for C3 (the concrete scenario of the
specification: expense Food 10.00 on 2025-06-01, income 50.00 on
2025-06-02, expense Food 5.00 on 2025-06-02, in hundredths). -/
def c3Txs : List Transaction :=
  [{ type := TxType.expense, category := some ⟨1, "Food"⟩, amount := 1000, date := ⟨2025, 6, 1⟩ },
   { type := TxType.income, category := none, amount := 5000, date := ⟨2025, 6, 2⟩ },
   { type := TxType.expense, category := some ⟨1, "Food"⟩, amount := 500, date := ⟨2025, 6, 2⟩ }]

/-- The dashboard output of the C3 scenario. -/
def c3Result : DashboardResult :=
  { total_income := 5000, total_expense := 1500, balance := 3500
    expense_cat_labels := ["Food"], expense_cat_values := [1500]
    last7_labels := ["2025-05-27", "2025-05-28", "2025-05-29", "2025-05-30",
                     "2025-05-31", "2025-06-01", "2025-06-02"]
    last7_values := [0, 0, 0, 0, 0, 1000, 500] }

theorem C3_balance_witness :
    c3Result.balance = c3Result.total_income - c3Result.total_expense :=
  (C3_balance ⟨none, none, none, none⟩ c3Today c3Txs c3Result (by rfl)).1

/-! ### Trend values -/

/-- C4: for each of the 7 trend days, the reported value equals the sum
of amount over the already-filtered set restricted to type expense and
date equal to that day (days with no matching transaction report the sum
over an empty list, 0); the trend is computed against the filtered set,
not the raw table, and only the anchor date is computed independently of
the filters, from the end-date criterion alone. -/
theorem C4_trend_values (c : Criteria) (today : Date) (txs : List Transaction)
    (r : DashboardResult) (ws : List Date)
    (h : aggregate c today txs = Except.ok r)
    (hw : buildWindow (anchorOfCrit c today) = some ws) :
    r.last7_values = ws.map (fun day =>
      sumAmount ((applyFilters c txs).filter
        (fun t => isExpense t && (t.date == day)))) ∧
    r.last7_labels = ws.map dateFormat ∧
    anchorOfCrit c today = (match c.e_date with
                            | some d => d
                            | none => today) := by
  obtain ⟨ws2, hw2, hr⟩ := aggregate_ok_elim h
  rw [hw2] at hw
  have hws := Option.some.inj hw
  subst hws
  subst hr
  exact ⟨rfl, rfl, rfl⟩

/-- Concrete criteria used for C4: a category filter is present, so the
trend is visibly computed against the filtered set. -/
def c4Crit : Criteria :=
  { s_date := none, e_date := some ⟨2025, 6, 2⟩, category := some 1, txType := none }

/-- Concrete transactions used for C4. -/
def c4Txs : List Transaction :=
  [{ type := TxType.expense, category := some ⟨1, "Food"⟩, amount := 1000, date := ⟨2025, 6, 1⟩ },
   { type := TxType.expense, category := some ⟨2, "Rent"⟩, amount := 9000, date := ⟨2025, 6, 1⟩ },
   { type := TxType.expense, category := some ⟨1, "Food"⟩, amount := 500, date := ⟨2025, 6, 2⟩ }]

/-- The 7-day window of the C4 instance. -/
def c4Window : List Date :=
  [⟨2025, 5, 27⟩, ⟨2025, 5, 28⟩, ⟨2025, 5, 29⟩, ⟨2025, 5, 30⟩,
   ⟨2025, 5, 31⟩, ⟨2025, 6, 1⟩, ⟨2025, 6, 2⟩]

/-- The dashboard output of the C4 instance: the Rent expense is filtered
out of the trend by the category filter. -/
def c4Result : DashboardResult :=
  { total_income := 0, total_expense := 1500, balance := -1500
    expense_cat_labels := ["Food"], expense_cat_values := [1500]
    last7_labels := ["2025-05-27", "2025-05-28", "2025-05-29", "2025-05-30",
                     "2025-05-31", "2025-06-01", "2025-06-02"]
    last7_values := [0, 0, 0, 0, 0, 1000, 500] }

theorem C4_trend_values_witness :
    c4Result.last7_values = c4Window.map (fun day =>
      sumAmount ((applyFilters c4Crit c4Txs).filter
        (fun t => isExpense t && (t.date == day)))) :=
  (C4_trend_values c4Crit ⟨2025, 6, 3⟩ c4Txs c4Result c4Window
    (by rfl) (by rfl)).1

/-! ### Breakdown reconciliation -/

theorem sum_ite_notmem (ks : List (Option String)) (k0 : Option String)
    (a : Int) (hnot : k0 ∉ ks) :
    (ks.map (fun k => if k0 == k then a else 0)).sum = 0 := by
  induction ks with
  | nil => rfl
  | cons k ks ih =>
    rw [List.map_cons, List.sum_cons]
    have hne : ¬ (k0 = k) := fun he => hnot (he ▸ List.mem_cons_self k ks)
    rw [if_neg (by simpa using hne)]
    rw [ih (fun hm => hnot (List.mem_cons_of_mem k hm))]
    omega

theorem sum_ite_key (keys : List (Option String)) (k0 : Option String)
    (a : Int) (hnd : keys.Nodup) (hmem : k0 ∈ keys) :
    (keys.map (fun k => if k0 == k then a else 0)).sum = a := by
  induction keys with
  | nil => cases hmem
  | cons k ks ih =>
    rw [List.map_cons, List.sum_cons]
    rcases List.mem_cons.mp hmem with heq | hmem2
    · subst heq
      rw [if_pos (by simp)]
      rw [sum_ite_notmem ks k0 a (List.nodup_cons.mp hnd).1]
      omega
    · have hknot : k0 ≠ k := by
        intro he
        exact (List.nodup_cons.mp hnd).1 (he ▸ hmem2)
      rw [if_neg (by simpa using hknot)]
      rw [ih (List.nodup_cons.mp hnd).2 hmem2]
      omega

theorem sum_map_zero (keys : List (Option String)) :
    (keys.map (fun _ => (0 : Int))).sum = 0 := by
  induction keys with
  | nil => rfl
  | cons k ks ih =>
    rw [List.map_cons, List.sum_cons, ih]
    omega

theorem groupTotal_cons (t : Transaction) (ts : List Transaction)
    (k : Option String) :
    groupTotal (t :: ts) k =
      (if catKey t == k then t.amount else 0) + groupTotal ts k := by
  unfold groupTotal
  rw [List.filter_cons]
  by_cases hk : (catKey t == k) = true
  · rw [if_pos hk, if_pos hk]
    show sumAmount (t :: _) = _
    unfold sumAmount
    rw [List.map_cons, List.sum_cons]
  · rw [if_neg hk, if_neg hk]
    omega

theorem sum_groupTotals (keys : List (Option String)) (l : List Transaction)
    (hnd : keys.Nodup) (hcov : ∀ t ∈ l, catKey t ∈ keys) :
    (keys.map (groupTotal l)).sum = sumAmount l := by
  induction l with
  | nil =>
    have hz : groupTotal ([] : List Transaction) = fun _ => (0 : Int) :=
      funext fun k => rfl
    rw [hz, sum_map_zero]
    rfl
  | cons t ts ih =>
    have hcov2 : ∀ x ∈ ts, catKey x ∈ keys :=
      fun x hx => hcov x (List.mem_cons_of_mem t hx)
    have hmem : catKey t ∈ keys := hcov t (List.mem_cons_self t ts)
    have hfun : groupTotal (t :: ts) = fun k =>
        (if catKey t == k then t.amount else 0) + groupTotal ts k :=
      funext fun k => groupTotal_cons t ts k
    calc (keys.map (groupTotal (t :: ts))).sum
        = (keys.map (fun k =>
            (if catKey t == k then t.amount else 0) + groupTotal ts k)).sum := by
          rw [hfun]
      _ = (keys.map (fun k => if catKey t == k then t.amount else 0)).sum +
            (keys.map (groupTotal ts)).sum := List.sum_map_add
      _ = t.amount + sumAmount ts := by
          rw [sum_ite_key keys (catKey t) t.amount hnd hmem, ih hcov2]
      _ = sumAmount (t :: ts) := by
          show _ = (List.map Transaction.amount (t :: ts)).sum
          rw [List.map_cons, List.sum_cons]
          rfl

/-- C5: under every filter combination whose date bounds exclude no
expense transaction beyond what the type and category filters already
determine, whenever the dashboard returns a result, the sum of the
expense-by-category breakdown values equals the reported total expense
(the reconciliation in fact holds for every successful call, since the
breakdown and the total are computed from the same filtered set). -/
theorem C5_breakdown_total (c : Criteria) (today : Date) (txs : List Transaction)
    (r : DashboardResult)
    (hdates : ∀ t ∈ txs, t.type = TxType.expense → catPass c t = true →
      tyPass c t = true → (sPass c t = true ∧ ePass c t = true))
    (h : aggregate c today txs = Except.ok r) :
    r.expense_cat_values.sum = r.total_expense := by
  obtain ⟨ws, hw, hr⟩ := aggregate_ok_elim h
  subst hr
  show ((groupKeys (expensesOf c txs)).map (groupTotal (expensesOf c txs))).sum
      = totalExpense c txs
  rw [sum_groupTotals (groupKeys (expensesOf c txs)) (expensesOf c txs)
    (List.nodup_dedup _)
    (fun t ht => List.mem_dedup.mpr (List.mem_map_of_mem catKey ht))]
  rfl

/-- Concrete criteria used for C5: type and category filters present,
no date bounds. -/
def c5Crit : Criteria :=
  { s_date := none, e_date := none, category := some 1,
    txType := some TxType.expense }

/-- Concrete transactions used for C5. -/
def c5Txs : List Transaction :=
  [{ type := TxType.expense, category := some ⟨1, "Food"⟩, amount := 1000, date := ⟨2025, 6, 1⟩ },
   { type := TxType.income, category := some ⟨1, "Food"⟩, amount := 5000, date := ⟨2025, 6, 2⟩ },
   { type := TxType.expense, category := some ⟨2, "Rent"⟩, amount := 9000, date := ⟨2025, 6, 1⟩ },
   { type := TxType.expense, category := some ⟨1, "Food"⟩, amount := 500, date := ⟨2025, 6, 2⟩ }]

/-- The dashboard output of the C5 instance. -/
def c5Result : DashboardResult :=
  { total_income := 0, total_expense := 1500, balance := -1500
    expense_cat_labels := ["Food"], expense_cat_values := [1500]
    last7_labels := ["2025-05-27", "2025-05-28", "2025-05-29", "2025-05-30",
                     "2025-05-31", "2025-06-01", "2025-06-02"]
    last7_values := [0, 0, 0, 0, 0, 1000, 500] }

theorem C5_breakdown_total_witness :
    c5Result.expense_cat_values.sum = c5Result.total_expense :=
  C5_breakdown_total c5Crit ⟨2025, 6, 2⟩ c5Txs c5Result
    (by decide) (by rfl)

/-! ### Malformed filter input -/

/-- C6: for every transaction collection (and any other parameters), a
dashboard call with the malformed category parameter "abc" produces
exactly the same aggregation result as the same call with the category
parameter omitted, and a call with the malformed start_date parameter
"2025-13-40" produces exactly the same aggregation result as with
start_date omitted; no error is surfaced in either case. -/
theorem C6_malformed_ignored (p : RawParams) (today : Date)
    (txs : List Transaction) :
    dashboardRaw { p with category := some "abc" } today txs =
      dashboardRaw { p with category := none } today txs ∧
    dashboardRaw { p with start_date := some "2025-13-40" } today txs =
      dashboardRaw { p with start_date := none } today txs :=
  ⟨rfl, rfl⟩

/-- C7: counter-evidence for the totality of filter parsing and
application.  The category parameter consisting of the single superscript
two character (U+00B2) passes the str.isdigit guard, but int() then
rejects it, so the dashboard raises ValueError instead of degrading to
"filter not supplied". -/
theorem C7_category_raises :
    dashboardRaw { start_date := none, end_date := none,
                   category := some "²", txTypeRaw := none }
      ⟨2025, 6, 2⟩ [] = Except.error PyErr.valueError := by
  rfl

/-! ### Empty filtered set -/

theorem map_zero_replicate (ws : List Date) :
    ws.map (fun _ => (0 : Int)) = List.replicate ws.length 0 := by
  induction ws with
  | nil => rfl
  | cons d ds ih =>
    rw [List.map_cons, ih, List.length_cons, List.replicate_succ]

/-- C8 (amended): whenever the filtered set is empty — in particular when
the category filter references an id that exists in no transaction — and
the 7-day window does not underflow the minimum representable date, the
dashboard returns total income 0, total expense 0, balance 0, empty
breakdown sequences, and a trend that is present with all 7 values zero,
without error; when the anchor is earlier than 0001-01-07 the operation
instead raises OverflowError even though the filtered set is empty. -/
theorem C8_empty_filtered (c : Criteria) (today : Date)
    (txs : List Transaction) (ws : List Date)
    (hempty : applyFilters c txs = [])
    (hw : buildWindow (anchorOfCrit c today) = some ws) :
    aggregate c today txs = Except.ok (dashResult c today txs ws) ∧
    (dashResult c today txs ws).total_income = 0 ∧
    (dashResult c today txs ws).total_expense = 0 ∧
    (dashResult c today txs ws).balance = 0 ∧
    (dashResult c today txs ws).expense_cat_labels = [] ∧
    (dashResult c today txs ws).expense_cat_values = [] ∧
    (dashResult c today txs ws).last7_values = List.replicate 7 0 ∧
    (dashResult c today txs ws).last7_labels.length = 7 := by
  have h7 : ws.length = 7 := buildWindow_length hw
  refine ⟨?_, ?_, ?_, ?_, ?_, ?_, ?_, ?_⟩
  · unfold aggregate
    rw [hw]
  · show sumAmount ((applyFilters c txs).filter isIncome) = 0
    rw [hempty]
    rfl
  · show sumAmount ((applyFilters c txs).filter isExpense) = 0
    rw [hempty]
    rfl
  · show sumAmount ((applyFilters c txs).filter isIncome) -
        sumAmount ((applyFilters c txs).filter isExpense) = 0
    rw [hempty]
    rfl
  · show ((((applyFilters c txs).filter isExpense).map catKey).dedup).map pyOrLabel = []
    rw [hempty]
    rfl
  · show ((((applyFilters c txs).filter isExpense).map catKey).dedup).map
        (groupTotal ((applyFilters c txs).filter isExpense)) = []
    rw [hempty]
    rfl
  · show ws.map (fun day => sumAmount ((applyFilters c txs).filter
        (fun t => isExpense t && (t.date == day)))) = List.replicate 7 0
    rw [hempty]
    rw [show (ws.map fun day => sumAmount (([] : List Transaction).filter
          (fun t => isExpense t && (t.date == day)))) =
        ws.map (fun _ => (0 : Int)) from rfl]
    rw [map_zero_replicate, h7]
  · show (ws.map dateFormat).length = 7
    rw [List.length_map, h7]

/-- Concrete criteria used for C8: a category filter referencing an id
that exists in no transaction. -/
def c8Crit : Criteria :=
  { s_date := none, e_date := none, category := some 999, txType := none }

/-- Concrete transactions used for C8. -/
def c8Txs : List Transaction :=
  [{ type := TxType.expense, category := some ⟨1, "Food"⟩, amount := 1000,
     date := ⟨2025, 6, 1⟩ }]

/-- The 7-day window of the C8 instance. -/
def c8Window : List Date :=
  [⟨2025, 5, 27⟩, ⟨2025, 5, 28⟩, ⟨2025, 5, 29⟩, ⟨2025, 5, 30⟩,
   ⟨2025, 5, 31⟩, ⟨2025, 6, 1⟩, ⟨2025, 6, 2⟩]

theorem C8_empty_filtered_witness :
    (dashResult c8Crit ⟨2025, 6, 2⟩ c8Txs c8Window).total_income = 0 :=
  (C8_empty_filtered c8Crit ⟨2025, 6, 2⟩ c8Txs c8Window (by rfl) (by rfl)).2.1

/-- C8 counterexample: the filtered set is empty (nonexistent category
id 999), yet with end_date 0001-01-02 the dashboard raises OverflowError
rather than returning the all-zero aggregation the claim promises. -/
theorem C8_empty_filtered_counterexample :
    applyFilters (mkCriteria
      { start_date := none, end_date := some "0001-01-02",
        category := some "999", txTypeRaw := none } (some 999))
      [{ type := TxType.expense, category := some ⟨1, "Food"⟩, amount := 1000,
         date := ⟨2025, 6, 1⟩ }] = [] ∧
    dashboardRaw
      { start_date := none, end_date := some "0001-01-02",
        category := some "999", txTypeRaw := none }
      ⟨2025, 6, 2⟩
      [{ type := TxType.expense, category := some ⟨1, "Food"⟩, amount := 1000,
         date := ⟨2025, 6, 1⟩ }] = Except.error PyErr.overflowError :=
  ⟨rfl, rfl⟩

/-! ### Category grouping -/

/-- The breakdown labels of a dashboard outcome (empty on error). -/
def labelsOf (x : Except PyErr DashboardResult) : List String :=
  match x with
  | Except.ok r => r.expense_cat_labels
  | Except.error _ => []

/-- C9 (amended): expense transactions of the filtered set are grouped
by category name (an absent category is its own group), each group value
is the sum of amount over that group, and the grouping keys are distinct
and cover every filtered expense row; the literal label "Uncategorized"
is substituted for the grouping key exactly when the key is falsy in
Python — when the category is absent or when its name is the empty
string — while a category with a nonempty name keeps that name as its
label. -/
theorem C9_grouping (c : Criteria) (today : Date) (txs : List Transaction)
    (r : DashboardResult) (h : aggregate c today txs = Except.ok r) :
    r.expense_cat_labels = (groupKeys (expensesOf c txs)).map pyOrLabel ∧
    r.expense_cat_values =
      (groupKeys (expensesOf c txs)).map (groupTotal (expensesOf c txs)) ∧
    (groupKeys (expensesOf c txs)).Nodup ∧
    (∀ t ∈ expensesOf c txs, catKey t ∈ groupKeys (expensesOf c txs)) ∧
    (∀ k, groupTotal (expensesOf c txs) k =
      sumAmount ((expensesOf c txs).filter (fun t => catKey t == k))) ∧
    pyOrLabel none = "Uncategorized" ∧
    pyOrLabel (some "") = "Uncategorized" ∧
    (∀ s, s ≠ "" → pyOrLabel (some s) = s) := by
  obtain ⟨ws, hw, hr⟩ := aggregate_ok_elim h
  subst hr
  refine ⟨rfl, rfl, List.nodup_dedup _,
    fun t ht => List.mem_dedup.mpr (List.mem_map_of_mem catKey ht),
    fun k => rfl, rfl, rfl, fun s hs => ?_⟩
  show (if s = "" then "Uncategorized" else s) = s
  rw [if_neg hs]

/-- Concrete transactions used for C9: one expense whose category has
the empty string as name. -/
def c9Txs : List Transaction :=
  [{ type := TxType.expense, category := some ⟨3, ""⟩, amount := 500,
     date := ⟨2025, 6, 1⟩ }]

/-- The dashboard output of the C9 instance. -/
def c9Result : DashboardResult :=
  { total_income := 0, total_expense := 500, balance := -500
    expense_cat_labels := ["Uncategorized"], expense_cat_values := [500]
    last7_labels := ["2025-05-27", "2025-05-28", "2025-05-29", "2025-05-30",
                     "2025-05-31", "2025-06-01", "2025-06-02"]
    last7_values := [0, 0, 0, 0, 0, 500, 0] }

theorem C9_grouping_witness :
    c9Result.expense_cat_labels =
      (groupKeys (expensesOf ⟨none, none, none, none⟩ c9Txs)).map pyOrLabel :=
  (C9_grouping ⟨none, none, none, none⟩ ⟨2025, 6, 2⟩ c9Txs c9Result (by rfl)).1

/-- C9 counterexample: a transaction whose category is present but named
by the empty string is labelled "Uncategorized", so the literal label is
not used exactly when the category is absent. -/
theorem C9_grouping_counterexample :
    labelsOf (aggregate ⟨none, none, none, none⟩ ⟨2025, 6, 2⟩
      [{ type := TxType.expense, category := some ⟨3, ""⟩, amount := 500,
         date := ⟨2025, 6, 1⟩ }]) = ["Uncategorized"] ∧
    ({ type := TxType.expense, category := some ⟨3, ""⟩, amount := 500,
       date := ⟨2025, 6, 1⟩ } : Transaction).category.isSome = true :=
  ⟨rfl, rfl⟩

/-! ### Reversed date bounds -/

/-- C10: when both a well-formed start date and a well-formed end date
are supplied and the end date is strictly before the start date, the
filtered set is empty; the bounds are applied as given, with no swapping
or other correction. -/
theorem C10_end_before_start (s e : Date) (cat : Option Nat)
    (ty : Option TxType) (txs : List Transaction) (hlt : dateLtP e s) :
    applyFilters ⟨some s, some e, cat, ty⟩ txs = [] := by
  rw [applyFilters_eq_filter, List.filter_eq_nil_iff]
  intro t ht hmatch
  simp only [matchesFilters, Bool.and_eq_true] at hmatch
  obtain ⟨⟨⟨hs, he⟩, hcat⟩, hty⟩ := hmatch
  have hs2 : dateLeP s t.date := by simpa [sPass, optPass, sPred] using hs
  have he2 : dateLeP t.date e := by simpa [ePass, optPass, ePred] using he
  exact dateLeP_dateLtP_irrefl (dateLeP_trans hs2 he2) hlt

/-- Concrete transactions used for C10. -/
def c10Txs : List Transaction :=
  [{ type := TxType.expense, category := some ⟨1, "Food"⟩, amount := 1000,
     date := ⟨2025, 6, 5⟩ },
   { type := TxType.income, category := none, amount := 5000,
     date := ⟨2025, 6, 7⟩ }]

theorem C10_end_before_start_witness :
    applyFilters ⟨some ⟨2025, 6, 10⟩, some ⟨2025, 6, 1⟩, none, none⟩ c10Txs = [] :=
  C10_end_before_start ⟨2025, 6, 10⟩ ⟨2025, 6, 1⟩ none none c10Txs (by decide)

end FinanceDash
